import Mathlib

/-!
# Verification of the bank-reconciliation engine (`src/app.py`)

Shallow embedding of the `BankReconciliation` class of `src/app.py`:
the amount parser (`parse_amount`), the PDF statement extractor
(`parse_bank_pdf`), the constructor's entry filter (`__init__`), the
matcher/categorizer (`reconcile`), the statistics computed in
`generate_report`, and the TOTAL-row pass over the generated workbook.

Modelling conventions:
* Currency amounts (Python `float`) are modelled as exact rationals `ℚ`;
  the reconciliation arithmetic is plain `+`, `-`, `abs`, `<`.
* A pandas-null (`NaN`) cell is `Option.none`; pandas `notna` is `isSome`.
* Python strings are Lean `String`s; `str.replace`, `str.strip`, the `in`
  substring test and `str.upper` are re-implemented below on `List Char`
  so that every definition computes by `decide`/`rfl`.
* The mutable `bank_matched` set of `reconcile` is modelled by the list of
  consumed statement indices (only membership is ever consulted).
-/

namespace BankRec

/-- Python `str.strip()`: drop whitespace from both ends. -/
def pyStrip (s : String) : String :=
  ⟨((s.toList.dropWhile Char.isWhitespace).reverse.dropWhile Char.isWhitespace).reverse⟩

/-- Python `str.replace`: replace every non-overlapping, left-to-right
occurrence of `pat` by `rep` (no occurrences are replaced when `pat` is
empty, which never happens for the patterns the program uses). Structural
recursion on a fuel that `pyReplace` sets to the input length, which always
suffices because each step consumes at least one character. -/
def replaceAll (pat rep : List Char) : ℕ → List Char → List Char
  | _, [] => []
  | 0, l => l
  | fuel + 1, c :: rest =>
    if pat ≠ [] ∧ pat.isPrefixOf (c :: rest) then
      rep ++ replaceAll pat rep fuel ((c :: rest).drop pat.length)
    else
      c :: replaceAll pat rep fuel rest

/-- Python `s.replace(pat, rep)` on `String`s. -/
def pyReplace (s pat rep : String) : String :=
  ⟨replaceAll pat.toList rep.toList s.toList.length s.toList⟩

/-- Python `needle in hay` (substring containment) on character lists. -/
def containsSub (needle : List Char) : List Char → Bool
  | [] => needle.isEmpty
  | c :: rest => needle.isPrefixOf (c :: rest) || containsSub needle rest

/-- Python `needle in hay` on `String`s. -/
def strContainsSub (hay needle : String) : Bool :=
  containsSub needle.toList hay.toList

/-- Python `str.upper()` (ASCII case mapping, as in the program's data). -/
def pyUpper (s : String) : String :=
  ⟨s.toList.map Char.toUpper⟩

/-- Numeric value of a digit list (most significant first). -/
def digitsVal (l : List Char) : ℕ :=
  l.foldl (fun acc c => acc * 10 + (c.toNat - 48)) 0

/-- Exponent suffix of a Python float literal: empty, or `e`/`E`, an optional
sign, and a non-empty digit run; `none` on anything else. -/
def parseExpPart : List Char → Option ℤ
  | [] => some 0
  | c :: rest =>
    if c = 'e' ∨ c = 'E' then
      let (es, rest') : ℤ × List Char :=
        match rest with
        | '+' :: r => (1, r)
        | '-' :: r => (-1, r)
        | _ => (1, rest)
      let ed := rest'.takeWhile Char.isDigit
      let rem := rest'.dropWhile Char.isDigit
      if ed.isEmpty ∨ ¬ rem.isEmpty then none else some (es * digitsVal ed)
    else none

/-- The syntactic parts of a parsed float literal: sign, integer digits,
fraction digits with their count, exponent. -/
structure FloatParts where
  neg : Bool
  ip : ℕ
  fp : ℕ
  fpLen : ℕ
  exp : ℤ
deriving Repr, DecidableEq

/-- The recognizer of Python's `float(s)` builtin on the decimal-literal
grammar the statements use: optional sign, integer digits, optional fraction,
optional exponent (`inf`/`nan` and digit underscores are outside the
program's data and count as parse failures). `none` exactly when `float`
raises. -/
def pyFloatParts (s : String) : Option FloatParts :=
  let cs := s.toList
  let (neg, cs₁) : Bool × List Char :=
    match cs with
    | '+' :: rest => (false, rest)
    | '-' :: rest => (true, rest)
    | _ => (false, cs)
  let ip := cs₁.takeWhile Char.isDigit
  let cs₂ := cs₁.dropWhile Char.isDigit
  match cs₂ with
  | [] => if ip.isEmpty then none else some ⟨neg, digitsVal ip, 0, 0, 0⟩
  | '.' :: rest =>
    let fp := rest.takeWhile Char.isDigit
    let rest' := rest.dropWhile Char.isDigit
    if ip.isEmpty ∧ fp.isEmpty then none
    else
      match parseExpPart rest' with
      | none => none
      | some e => some ⟨neg, digitsVal ip, digitsVal fp, fp.length, e⟩
  | _ =>
    match parseExpPart cs₂ with
    | none => none
    | some e => if ip.isEmpty then none else some ⟨neg, digitsVal ip, 0, 0, e⟩

/-- The rational value denoted by parsed float parts. -/
def ratOfFloatParts (p : FloatParts) : ℚ :=
  (if p.neg then (-1 : ℚ) else 1) * ((p.ip : ℚ) + (p.fp : ℚ) / (10 : ℚ) ^ p.fpLen)
    * (10 : ℚ) ^ p.exp

/-- Python's `float(s)` builtin (value level). -/
def pyFloat (s : String) : Option ℚ :=
  (pyFloatParts s).map ratOfFloatParts

/-- `BankReconciliation.parse_amount` (src/app.py lines 112-122): `0.0` for a
missing (`NaN`/falsy) input; otherwise strip commas, `"Nu."`, `"BTN"` and
whitespace and parse as a float, with `0.0` on parse failure. Total: it never
raises. -/
def parse_amount (x : Option String) : ℚ :=
  match x with
  | none => 0
  | some s =>
    if s = "" then 0
    else
      let cleaned := pyStrip (pyReplace (pyReplace (pyReplace s "," "") "Nu." "") "BTN" "")
      match pyFloat cleaned with
      | some v => v
      | none => 0

/-- One statement transaction extracted from the bank PDF
(the dict appended at lines 96-101 of src/app.py). -/
structure BankTxn where
  date : String
  journal_number : String
  description : String
  amount : ℚ
deriving Repr, DecidableEq

/-- One row of the uploaded ledger. `chequeDDNo = none` models a pandas-null
(`NaN`) `ChequeDDNo` cell; for a non-null cell the field holds Python's
`str(value)`. Ledger columns other than `ChequeDDNo` and `Amount` are opaque
pass-through data and are not tracked. -/
structure LedgerRow where
  chequeDDNo : Option String
  amount : ℚ
deriving Repr, DecidableEq

/-- `__init__` line 44: `data_entry_df[data_entry_df['ChequeDDNo'].notna()]` —
keep exactly the rows whose reference key is not null. -/
def filteredEntries (rows : List LedgerRow) : List LedgerRow :=
  rows.filter (fun r => r.chequeDDNo.isSome)

/-- `__init__` line 47: the `_ChequeDDNo_str` column,
`astype(str).str.strip()` of a (non-null) reference key. -/
def chequeStr (r : LedgerRow) : String :=
  pyStrip (r.chequeDDNo.getD "")

/-- `__init__` line 50: journal numbers of the parsed statement are converted
to trimmed strings. -/
def bankInit (ts : List BankTxn) : List BankTxn :=
  ts.map (fun t => { t with journal_number := pyStrip t.journal_number })

/-- A filtered ledger entry as `reconcile` reads it (lines 137-138):
`journal = row['_ChequeDDNo_str']`, `amount = float(row['Amount'])`. -/
structure Entry where
  journal : String
  amount : ℚ
deriving Repr, DecidableEq

def mkEntry (r : LedgerRow) : Entry :=
  ⟨chequeStr r, r.amount⟩

/-- The sequence of entries the `reconcile` loop iterates, in original row
order. -/
def entriesOf (rows : List LedgerRow) : List Entry :=
  (filteredEntries rows).map mkEntry

/-- The remark cell of an emitted row. The adjustment remark f-string of
line 181 is abstracted to the four values it cites. -/
inductive Remark where
  | empty
  | adjustment (journal : String) (bank entry diff : ℚ)
deriving Repr, DecidableEq

/-- One row emitted by `reconcile` into `all_entries` / `matched` /
`adjusted` / `unmatched` (`row.to_dict()` plus the keys the loop adds).
`bank_Amount` and `difference` are `none` where the code stores the empty
string `''`. -/
structure OutRow where
  journal : String
  amount : ℚ
  status : String
  bank_Amount : Option ℚ
  difference : Option ℚ
  remark : Remark
deriving Repr, DecidableEq

/-- Line 141 + `.iloc[0]`/`.index[0]` (lines 153-154):
`bank_df[bank_df['journal_number'] == journal]` is the sub-dataframe of
matching rows; taking its first row and positional index. -/
def findMatchAux (j : String) : List BankTxn → ℕ → Option (ℕ × BankTxn)
  | [], _ => Option.none
  | t :: ts, i => if t.journal_number = j then some (i, t) else findMatchAux j ts (i + 1)

def findMatch (bank : List BankTxn) (j : String) : Option (ℕ × BankTxn) :=
  findMatchAux j bank 0

/-- Outcome of one iteration of the `reconcile` loop for one entry. -/
inductive Outcome where
  | notFound
  | matchedO (i : ℕ) (t : BankTxn)
  | mismatchO (i : ℕ) (t : BankTxn)
deriving Repr, DecidableEq

/-- Lines 141-183: no statement row with this journal → `Not Found in Bank`;
otherwise first match wins and `abs(bank_amount - amount) < 1.0` separates
`Matched` from `Amount Mismatch`. -/
def classify (bank : List BankTxn) (e : Entry) : Outcome :=
  match findMatch bank e.journal with
  | Option.none => .notFound
  | some (i, t) => if |t.amount - e.amount| < 1 then .matchedO i t else .mismatchO i t

/-- The four per-ledger-entry output lists of `reconcile`. -/
structure Cats where
  all_entries : List OutRow
  matched : List OutRow
  adjusted : List OutRow
  unmatched : List OutRow
deriving Repr, DecidableEq

/-- The rows one entry contributes to each list (lines 143-183). -/
def rowsFor (e : Entry) : Outcome → Cats
  | .notFound =>
    let r : OutRow := ⟨e.journal, e.amount, "Not Found in Bank", Option.none, Option.none, .empty⟩
    ⟨[r], [], [], [r]⟩
  | .matchedO _ t =>
    let r : OutRow := ⟨e.journal, e.amount, "Matched", some t.amount, some 0, .empty⟩
    ⟨[r], [r], [], []⟩
  | .mismatchO _ t =>
    let d := t.amount - e.amount
    let r : OutRow := ⟨e.journal, e.amount, "Amount Mismatch", some t.amount, some d, .empty⟩
    let adj : OutRow := ⟨e.journal, d, "Adjustment Entry", some t.amount, some d,
      .adjustment e.journal t.amount e.amount d⟩
    ⟨[r, adj], [], [r, adj], []⟩

def catsAppend (a b : Cats) : Cats :=
  ⟨a.all_entries ++ b.all_entries, a.matched ++ b.matched,
   a.adjusted ++ b.adjusted, a.unmatched ++ b.unmatched⟩

/-- The ledger pass of `reconcile` (lines 136-183), emitting rows in
iteration order. -/
def reconEntries (bank : List BankTxn) : List Entry → Cats
  | [] => ⟨[], [], [], []⟩
  | e :: rest => catsAppend (rowsFor e (classify bank e)) (reconEntries bank rest)

/-- The `bank_matched` index set at the end of the ledger pass: line 154 adds
`bank_match.index[0]` — the first matching statement index — for every entry
that found a match, in both the matched and the mismatch branch. Only
membership in the set is ever consulted. -/
def consumedIdx (bank : List BankTxn) (entries : List Entry) : List ℕ :=
  entries.filterMap (fun e => (findMatch bank e.journal).map Prod.fst)

/-- The synthetic unregistered record for one leftover statement transaction
(lines 189-199). -/
structure UnregRow where
  paymentDate : String
  customerName : String
  chequeDDNo : String
  amount : ℚ
  paymentMode : String
  bank : String
  remark : String
  status : String
  bank_Amount : ℚ
deriving Repr, DecidableEq

def mkUnregRow (t : BankTxn) : UnregRow :=
  ⟨t.date, "UNREGISTERED", t.journal_number, t.amount, "BANK TRANSFER",
   "Bank of Bhutan", t.description, "Not in Data Entry", t.amount⟩

/-- Lines 186-199: `bank_df[~bank_df.index.isin(bank_matched)]`, emitted as
unregistered records in statement order. -/
def unregRows (bank : List BankTxn) (entries : List Entry) : List UnregRow :=
  ((bank.enum.filter (fun p => !((consumedIdx bank entries).contains p.1))).map
    (fun p => mkUnregRow p.2))

/-- The five categorized record sets returned by `reconcile` (lines 201-207). -/
structure ReconResult where
  all_entries : List OutRow
  matched : List OutRow
  adjusted : List OutRow
  unmatched : List OutRow
  unregistered : List UnregRow
deriving Repr, DecidableEq

def reconcile (bank : List BankTxn) (entries : List Entry) : ReconResult :=
  let c := reconEntries bank entries
  ⟨c.all_entries, c.matched, c.adjusted, c.unmatched, unregRows bank entries⟩

/-- The statistics dict of `generate_report` (lines 215-236). -/
structure Stats where
  total_entries : ℕ
  matched : ℕ
  mismatches : ℕ
  unmatched : ℕ
  unregistered : ℕ
  total_bank_transactions : ℕ
  total_entered_amount : ℚ
  total_adjustment_amount : ℚ
  total_after_adjustment : ℚ
  total_bank_amount : ℚ
  amount_difference : ℚ
deriving Repr, DecidableEq

/-- Lines 215-236 on the post-`__init__` state: `rows` is the uploaded ledger,
`bank` the parsed-and-trimmed statement transactions. -/
def statsOf (rows : List LedgerRow) (bank : List BankTxn) : Stats :=
  let entries := entriesOf rows
  let c := reconcile bank entries
  let total_entered := (entries.map Entry.amount).sum
  let total_bank := (bank.map BankTxn.amount).sum
  let adjustment_amount : ℚ :=
    if c.adjusted.length > 0 then
      ((c.adjusted.filter (fun r => r.status == "Adjustment Entry")).map OutRow.amount).sum
    else 0
  let mismatches_count : ℕ :=
    if c.adjusted.length > 0 then
      (c.adjusted.filter (fun r => r.status == "Amount Mismatch")).length
    else 0
  { total_entries := entries.length
    matched := c.matched.length
    mismatches := mismatches_count
    unmatched := c.unmatched.length
    unregistered := c.unregistered.length
    total_bank_transactions := bank.length
    total_entered_amount := total_entered
    total_adjustment_amount := adjustment_amount
    total_after_adjustment := total_entered + adjustment_amount
    total_bank_amount := total_bank
    amount_difference := total_bank - (total_entered + adjustment_amount) }

/-- The accuracy cell of the Summary sheet (line 312): a percentage value
rendered by `f"{v:.1f}%"`, or the literal string `'0%'`. -/
inductive AccuracyCell where
  | pct (v : ℚ)
  | zeroLiteral
deriving Repr, DecidableEq

/-- `f"{(stats['matched']/stats['total_entries']*100):.1f}%" if
stats['total_entries'] > 0 else '0%'` — the division happens only under the
guard, so the expression is total. -/
def accuracyCell (s : Stats) : AccuracyCell :=
  if s.total_entries > 0 then .pct ((s.matched : ℚ) / (s.total_entries : ℚ) * 100)
  else .zeroLiteral

/-- openpyxl `ws.max_row` bookkeeping: writing a cell at row `r` extends
`max_row` to `r` if it lies beyond it. -/
def writeCellRow (maxRow r : ℕ) : ℕ :=
  max maxRow r

/-- The TOTAL pass for one transactional sheet with an `Amount` column
(lines 341-357): guarded by `ws.max_row > 1`; `total_row = ws.max_row + 1`;
writing `"TOTAL"` at `(total_row, 1)` first (which extends `max_row`), then
the formula `=SUM(col 2 : col (ws.max_row - 1))` with the updated `max_row`.
Returns `(total_row, first formula row, last formula row)`, or `none` when
the guard rejects the sheet. -/
def addTotalRow (maxRow : ℕ) : Option (ℕ × ℕ × ℕ) :=
  if maxRow > 1 then
    let total_row := maxRow + 1
    let maxRow' := writeCellRow maxRow total_row
    some (total_row, 2, maxRow' - 1)
  else Option.none

/-- Truthiness of a pdfplumber cell (`if cell`, `if row[i]`):
`None` and `''` are falsy. -/
def cellTruthy : Option String → Bool
  | Option.none => false
  | some s => s != ""

/-- Python `str(cell)` for a pdfplumber cell. -/
def pyStrCell : Option String → String
  | Option.none => "None"
  | some s => s

/-- Python `repr` of a cell, as it appears inside `str(row)` at line 81:
`None` bare, a string in single quotes (repr escaping cannot form or destroy
an occurrence of the program's alphanumeric keywords). -/
def pyReprCell : Option String → String
  | Option.none => "None"
  | some s => "'" ++ s ++ "'"

/-- Python `str(row)` for a list of cells. -/
def pyReprRow (row : List (Option String)) : String :=
  "[" ++ String.intercalate ", " (row.map pyReprCell) ++ "]"

/-- The exclusion keywords of line 81. -/
def excludeKws : List String :=
  ["TOTAL", "OPENING", "CLOSING", "STATEMENT", "BALANCE AS"]

/-- `str(row[i]).strip() if len(row) > i and row[i] else dflt`
(lines 85-88; for `i = 0` the length guard is vacuous). -/
def cellField (row : List (Option String)) (i : ℕ) (dflt : String) : String :=
  match row.get? i with
  | some c => if cellTruthy c then pyStrip (pyStrCell c) else dflt
  | Option.none => dflt

/-- Lines 77-103: one row after the detected header either yields a
transaction or is skipped. `if not row or len(row) < 5` collapses to a length
test; the row-level `try/except` has no failing operation in this model. -/
def processRow (row : List (Option String)) : Option BankTxn :=
  if row.length < 5 then Option.none
  else if excludeKws.any (fun kw => strContainsSub (pyUpper (pyReprRow row)) kw) then
    Option.none
  else
    let post_date := cellField row 0 ""
    let particulars := cellField row 2 ""
    let journal_number := cellField row 3 ""
    let amount_str := cellField row 6 "0"
    if journal_number = "" ∨ journal_number = "None" ∨ journal_number.length < 3 then
      Option.none
    else
      let amount := parse_amount (some amount_str)
      if amount > 0 then some ⟨post_date, journal_number, particulars, amount⟩
      else Option.none

/-- Lines 68-72: a header row holds a truthy cell whose uppercased text
contains `JOURNAL`. -/
def hasJournalCell (row : List (Option String)) : Bool :=
  row.any (fun c => cellTruthy c && strContainsSub (pyUpper (pyStrCell c)) "JOURNAL")

def findHeaderIdxAux : List (List (Option String)) → ℕ → Option ℕ
  | [], _ => Option.none
  | r :: rs, i => if hasJournalCell r then some i else findHeaderIdxAux rs (i + 1)

/-- Lines 64-103 for one table: tables shorter than 2 rows or without a
`JOURNAL` header contribute nothing; otherwise every row after the header is
processed. -/
def extractTable (table : List (List (Option String))) : List BankTxn :=
  if table.length < 2 then []
  else
    match findHeaderIdxAux table 0 with
    | Option.none => []
    | some i => (table.drop (i + 1)).filterMap processRow

/-- `parse_bank_pdf` page/table loops (lines 60-106) on an already-opened
document, a page being its list of extracted tables. A document-level open
failure (the outer `except` at line 108) aborts before this point and is not
modelled. -/
def extractPdf (pages : List (List (List (List (Option String))))) : List BankTxn :=
  (pages.map (fun tables => (tables.map extractTable).flatten)).flatten

/-- Columns of `pd.DataFrame(transactions)` (line 106): an empty record list
yields a DataFrame with no columns at all. -/
def dfColumns (ts : List BankTxn) : List String :=
  if ts.isEmpty then [] else ["date", "journal_number", "description", "amount"]

/-- Pandas column access `df[name]`: `KeyError` when the column is absent. -/
def colAccess (ts : List BankTxn) (name : String) : Except String (List BankTxn) :=
  if name ∈ dfColumns ts then .ok ts else .error ("KeyError: " ++ name)

/-- `__init__` lines 49-50 after `parse_bank_pdf` returned: access the
`journal_number` column of the extracted transactions and trim it. -/
def initBankDf (ts : List BankTxn) : Except String (List BankTxn) :=
  match colAccess ts "journal_number" with
  | .error e => .error e
  | .ok ts' => .ok (bankInit ts')

/-- `BankReconciliation.__init__` (lines 41-53) given the uploaded ledger and
the tables of the statement PDF: the filtered ledger paired with the trimmed
statement transactions, or the propagated column-access failure. The
ledger-side column accesses always succeed (the uploaded sheet carries its
columns) and are not modelled. -/
def bankReconciliationInit (rows : List LedgerRow)
    (pages : List (List (List (List (Option String))))) :
    Except String (List LedgerRow × List BankTxn) :=
  let filtered := filteredEntries rows
  match initBankDf (extractPdf pages) with
  | .error e => .error e
  | .ok bank => .ok (filtered, bank)

/-- Count of original `Amount Mismatch` rows inside the `adjusted` list (the
same filter `generate_report` applies at line 222). -/
def mismatchOriginals (l : List OutRow) : ℕ :=
  (l.filter (fun r => r.status == "Amount Mismatch")).length

/-- The status string the loop assigns to one entry's original row. -/
def entryStatus (bank : List BankTxn) (e : Entry) : String :=
  match classify bank e with
  | .notFound => "Not Found in Bank"
  | .matchedO _ _ => "Matched"
  | .mismatchO _ _ => "Amount Mismatch"

/- Concrete sample data used by the witness theorems. -/

def bankT1 : BankTxn := ⟨"01/01/2025", "J1", "payment one", 100⟩

def bankT2 : BankTxn := ⟨"02/01/2025", "J2", "payment two", 150⟩

def bankT3 : BankTxn := ⟨"03/01/2025", "J3", "payment three", 75⟩

def bankW : List BankTxn := [bankT1, bankT2, bankT3]

def rowsW : List LedgerRow :=
  [⟨some "J1", 100⟩, ⟨some "J2", 100⟩, ⟨some "J9", 70⟩, ⟨Option.none, 5⟩]

def entriesW : List Entry := entriesOf rowsW

def rowsEmptyKey : List LedgerRow := [⟨some "", 50⟩, ⟨some "   ", 60⟩]

def rowC6 : List (Option String) :=
  [some "01/01/2025", some "x", some "desc here", some "JRN123",
   some "y", some "z", some "1,500.00"]

def pagesNoHeader : List (List (List (List (Option String)))) :=
  [[[[some "Account summary", some "cover"], [some "no", some "transactions"]]]]

/-! ## Theorems -/

/-- Auxiliary: the per-entry contribution to the three exclusive category
counts is exactly one row. -/
theorem recon_count (bank : List BankTxn) (entries : List Entry) :
    (reconEntries bank entries).matched.length
      + mismatchOriginals (reconEntries bank entries).adjusted
      + (reconEntries bank entries).unmatched.length = entries.length := by
  induction entries with
  | nil => simp [reconEntries, mismatchOriginals]
  | cons e rest ih =>
    simp only [reconEntries, catsAppend]
    cases hc : classify bank e <;>
      simp [rowsFor, mismatchOriginals, List.filter_append, List.length_append] <;>
      simp [mismatchOriginals] at ih <;> omega

/-- C1: every filtered ledger entry is classified into exactly one of
`Matched`, `Amount Mismatch`, `Not Found in Bank` (its first emitted row
carries that single status), and
`len(matched) + (number of Amount Mismatch originals in adjusted) +
len(unmatched) = number of filtered entries` for every ledger and
statement. -/
theorem C1_partition (bank : List BankTxn) (rows : List LedgerRow) :
    (reconcile bank (entriesOf rows)).matched.length
      + mismatchOriginals (reconcile bank (entriesOf rows)).adjusted
      + (reconcile bank (entriesOf rows)).unmatched.length
      = (entriesOf rows).length
    ∧ ∀ e ∈ entriesOf rows,
        ((rowsFor e (classify bank e)).all_entries.map OutRow.status).head? =
          some (entryStatus bank e)
        ∧ entryStatus bank e ∈
            (["Matched", "Amount Mismatch", "Not Found in Bank"] : List String) := by
  constructor
  · simpa [reconcile] using recon_count bank (entriesOf rows)
  · intro e _
    cases hc : classify bank e <;> simp [rowsFor, entryStatus, hc]

/-- C1 witness: the sample entry `J1` of the sample ledger carries exactly
one of the three statuses. -/
theorem C1_partition_witness :
    ((rowsFor ⟨"J1", 100⟩ (classify bankW ⟨"J1", 100⟩)).all_entries.map OutRow.status).head? =
      some (entryStatus bankW ⟨"J1", 100⟩)
    ∧ entryStatus bankW ⟨"J1", 100⟩ ∈
        (["Matched", "Amount Mismatch", "Not Found in Bank"] : List String) :=
  (C1_partition bankW rowsW).2 ⟨"J1", 100⟩ (by decide)

/-- C2: for a matched ledger/statement pair the boundary is strict:
`|bank − entry| < 1.0` classifies `Matched` with a zero recorded difference,
and `1.0 ≤ |bank − entry|` (including exactly `1.0`) classifies
`Amount Mismatch`. -/
theorem C2_boundary (bank : List BankTxn) (e : Entry) (i : ℕ) (t : BankTxn)
    (h : findMatch bank e.journal = some (i, t)) :
    (|t.amount - e.amount| < 1 →
      classify bank e = .matchedO i t ∧
      (rowsFor e (classify bank e)).matched =
        [{ journal := e.journal, amount := e.amount, status := "Matched",
           bank_Amount := some t.amount, difference := some 0, remark := .empty }])
    ∧ (1 ≤ |t.amount - e.amount| →
      classify bank e = .mismatchO i t ∧
      ((rowsFor e (classify bank e)).all_entries.map OutRow.status)
        = ["Amount Mismatch", "Adjustment Entry"]) := by
  constructor
  · intro hlt
    have hcl : classify bank e = .matchedO i t := by simp [classify, h, hlt]
    exact ⟨hcl, by simp [hcl, rowsFor]⟩
  · intro hge
    have hnl : ¬ |t.amount - e.amount| < 1 := not_lt.mpr hge
    have hcl : classify bank e = .mismatchO i t := by simp [classify, h, hnl]
    exact ⟨hcl, by simp [hcl, rowsFor]⟩

/-- C2 witness: a pair `0.5` apart is `Matched` with recorded difference `0`;
a pair exactly `1.0` apart is `Amount Mismatch`. -/
theorem C2_boundary_witness :
    (classify bankW ⟨"J1", 100.5⟩ = .matchedO 0 bankT1 ∧
      (rowsFor ⟨"J1", 100.5⟩ (classify bankW ⟨"J1", 100.5⟩)).matched =
        [{ journal := "J1", amount := 100.5, status := "Matched",
           bank_Amount := some bankT1.amount, difference := some 0, remark := .empty }])
    ∧ (classify bankW ⟨"J2", 149⟩ = .mismatchO 1 bankT2 ∧
      ((rowsFor ⟨"J2", 149⟩ (classify bankW ⟨"J2", 149⟩)).all_entries.map OutRow.status)
        = ["Amount Mismatch", "Adjustment Entry"]) :=
  ⟨(C2_boundary bankW ⟨"J1", 100.5⟩ 0 bankT1 rfl).1 (by norm_num [bankT1, abs_lt]),
   (C2_boundary bankW ⟨"J2", 149⟩ 1 bankT2 rfl).2 (by norm_num [bankT2])⟩

/-- C3: a mismatched entry emits a synthetic adjustment row whose `Amount` is
the signed difference `bank − entry` and whose `Status` is
`Adjustment Entry`, and `entry + adjustment = bank` exactly. -/
theorem C3_adjustment (bank : List BankTxn) (e : Entry) (i : ℕ) (t : BankTxn)
    (h : classify bank e = .mismatchO i t) :
    (rowsFor e (classify bank e)).adjusted =
      [{ journal := e.journal, amount := e.amount, status := "Amount Mismatch",
         bank_Amount := some t.amount, difference := some (t.amount - e.amount),
         remark := .empty },
       { journal := e.journal, amount := t.amount - e.amount, status := "Adjustment Entry",
         bank_Amount := some t.amount, difference := some (t.amount - e.amount),
         remark := .adjustment e.journal t.amount e.amount (t.amount - e.amount) }]
    ∧ e.amount + (t.amount - e.amount) = t.amount := by
  exact ⟨by simp [h, rowsFor], by ring⟩

/-- C3 witness: the mismatch `J2` (entry `100`, bank `150`) gets an
`Adjustment Entry` row of amount `50` and `100 + 50 = 150`. -/
theorem C3_adjustment_witness :
    (rowsFor ⟨"J2", 100⟩ (classify bankW ⟨"J2", 100⟩)).adjusted =
      [{ journal := "J2", amount := 100, status := "Amount Mismatch",
         bank_Amount := some bankT2.amount, difference := some (bankT2.amount - 100),
         remark := .empty },
       { journal := "J2", amount := bankT2.amount - 100, status := "Adjustment Entry",
         bank_Amount := some bankT2.amount, difference := some (bankT2.amount - 100),
         remark := .adjustment "J2" bankT2.amount 100 (bankT2.amount - 100) }]
    ∧ (100 : ℚ) + (bankT2.amount - 100) = bankT2.amount :=
  C3_adjustment bankW ⟨"J2", 100⟩ 1 bankT2 (by
    have h : findMatch bankW "J2" = some (1, bankT2) := rfl
    have hn : ¬ (|bankT2.amount - (100 : ℚ)| < 1) := by norm_num [bankT2]
    simp [classify, h, hn])

/-- Auxiliary: `findMatchAux` returns the first match at or after offset
`n`. -/
theorem findMatchAux_spec (s : String) (l : List BankTxn) (n i : ℕ) (t : BankTxn)
    (h : findMatchAux s l n = some (i, t)) :
    n ≤ i ∧ l.get? (i - n) = some t ∧ t.journal_number = s ∧
      ∀ k, k < i - n → ∀ u, l.get? k = some u → u.journal_number ≠ s := by
  induction l generalizing n with
  | nil => simp [findMatchAux] at h
  | cons t' ts ih =>
    by_cases he : t'.journal_number = s
    · simp [findMatchAux, he] at h
      obtain ⟨hi, ht⟩ := h
      subst hi; subst ht
      exact ⟨le_rfl, by simp, he, by intro k hk; omega⟩
    · simp [findMatchAux, he] at h
      obtain ⟨h1, h2, h3, h4⟩ := ih (n + 1) h
      refine ⟨by omega, ?_, h3, ?_⟩
      · have hin : i - n = (i - (n + 1)) + 1 := by omega
        rw [hin]
        simpa using h2
      · intro k hk u hu
        match k with
        | 0 => simp at hu; subst hu; exact he
        | k' + 1 =>
          have hk' : k' < i - (n + 1) := by omega
          exact h4 k' hk' u (by simpa using hu)

/-- C4: a statement transaction reaches the unregistered output iff its index
was never consumed; the consumed indices are exactly the first-match indices
of the entries; `findMatch` indeed returns the first transaction sharing the
reference key; and every unregistered record carries the fixed literals
`UNREGISTERED` / `BANK TRANSFER` / `Bank of Bhutan` and its own amount as
`Bank_Amount`. -/
theorem C4_unregistered (bank : List BankTxn) (entries : List Entry) (j : ℕ)
    (h : j < bank.length) :
    (j ∈ (bank.enum.filter
        (fun p => !((consumedIdx bank entries).contains p.1))).map Prod.fst
      ↔ j ∉ consumedIdx bank entries)
    ∧ (∀ u ∈ (reconcile bank entries).unregistered,
        u.customerName = "UNREGISTERED" ∧ u.paymentMode = "BANK TRANSFER" ∧
        u.bank = "Bank of Bhutan" ∧ u.bank_Amount = u.amount)
    ∧ (∀ i, i ∈ consumedIdx bank entries ↔
        ∃ e ∈ entries, ∃ t, findMatch bank e.journal = some (i, t))
    ∧ (∀ s i t, findMatch bank s = some (i, t) →
        bank.get? i = some t ∧ t.journal_number = s ∧
        ∀ k, k < i → ∀ u, bank.get? k = some u → u.journal_number ≠ s) := by
  refine ⟨?_, ?_, ?_, ?_⟩
  · constructor
    · intro hmem
      simp only [List.mem_map, List.mem_filter] at hmem
      obtain ⟨p, ⟨_, hpf⟩, hpj⟩ := hmem
      simp at hpf
      rwa [hpj] at hpf
    · intro hnot
      refine List.mem_map.mpr ⟨(j, bank.get ⟨j, h⟩), List.mem_filter.mpr ⟨?_, ?_⟩, rfl⟩
      · rw [List.mk_mem_enum_iff_getElem?]
        simp [List.getElem?_eq_getElem h]
      · simpa using hnot
  · intro u hu
    simp only [reconcile, unregRows, List.mem_map] at hu
    obtain ⟨p, _, hp⟩ := hu
    subst hp
    simp [mkUnregRow]
  · intro i
    simp [consumedIdx, List.mem_filterMap]
  · intro s i t hfm
    obtain ⟨_, h2, h3, h4⟩ := findMatchAux_spec s bank 0 i t hfm
    refine ⟨by simpa using h2, h3, ?_⟩
    intro k hk u hu
    exact h4 k (by omega) u (by simpa using hu)

/-- C4 witness: in the sample run, statement index `2` (journal `J3`) is
unconsumed and unregistered, and its synthetic record carries the fixed
literals. -/
theorem C4_unregistered_witness :
    ((2 : ℕ) ∈ (bankW.enum.filter
        (fun p => !((consumedIdx bankW entriesW).contains p.1))).map Prod.fst
      ↔ 2 ∉ consumedIdx bankW entriesW)
    ∧ ((mkUnregRow bankT3).customerName = "UNREGISTERED" ∧
       (mkUnregRow bankT3).paymentMode = "BANK TRANSFER" ∧
       (mkUnregRow bankT3).bank = "Bank of Bhutan" ∧
       (mkUnregRow bankT3).bank_Amount = (mkUnregRow bankT3).amount) :=
  ⟨(C4_unregistered bankW entriesW 2 (by decide)).1,
   (C4_unregistered bankW entriesW 2 (by decide)).2.1 (mkUnregRow bankT3) (by decide)⟩

/-- C5 counterexample: the claim says empty or whitespace-only reference keys
are excluded from all reconciliation categories and from `total_entries`, but
the filter at line 44 only drops nulls: both rows of `rowsEmptyKey`
(keys `""` and `"   "`) are counted in `total_entries` and land in the
`unmatched` category. -/
theorem C5_counterexample :
    (entriesOf rowsEmptyKey).length = 2
    ∧ (statsOf rowsEmptyKey []).total_entries = 2
    ∧ (reconcile [] (entriesOf rowsEmptyKey)).unmatched =
        [⟨"", 50, "Not Found in Bank", Option.none, Option.none, .empty⟩,
         ⟨"", 60, "Not Found in Bank", Option.none, Option.none, .empty⟩] :=
  ⟨by decide, by decide, by decide⟩

/-- C5 (amended): only entries with a non-null reference key participate; a
null-key entry is excluded from the filtered set (hence from every category
and from `total_entries`, which counts exactly the filtered rows); entries
with an empty or whitespace-only but non-null key are kept. -/
theorem C5_filter_amended (rows : List LedgerRow) (bank : List BankTxn) (r : LedgerRow) :
    (r ∈ filteredEntries rows ↔ r ∈ rows ∧ r.chequeDDNo.isSome)
    ∧ (statsOf rows bank).total_entries = (filteredEntries rows).length
    ∧ (r.chequeDDNo = Option.none → r ∉ filteredEntries rows) := by
  refine ⟨by simp [filteredEntries, List.mem_filter], by simp [statsOf, entriesOf], ?_⟩
  intro hn hmem
  rw [filteredEntries, List.mem_filter] at hmem
  simp [hn] at hmem

/-- C5 witness: the null-key sample row is excluded from the filtered set. -/
theorem C5_filter_amended_witness :
    (⟨Option.none, 5⟩ : LedgerRow) ∉ filteredEntries rowsW :=
  (C5_filter_amended rowsW bankW ⟨Option.none, 5⟩).2.2 rfl

/-- C6: a row after the header yields a statement transaction only if it has
at least 5 cells, its concatenated text contains no exclusion keyword
(case-insensitively), its column-3 reference key is non-empty, not the
literal `None`, and at least 3 characters long, and its parsed column-6
amount is strictly positive (all other rows are skipped, this being the
contrapositive). -/
theorem C6_row_filter (row : List (Option String)) (t : BankTxn)
    (h : processRow row = some t) :
    5 ≤ row.length
    ∧ (∀ kw ∈ excludeKws, strContainsSub (pyUpper (pyReprRow row)) kw = false)
    ∧ cellField row 3 "" ≠ ""
    ∧ cellField row 3 "" ≠ "None"
    ∧ 3 ≤ (cellField row 3 "").length
    ∧ t.journal_number = cellField row 3 ""
    ∧ t.amount = parse_amount (some (cellField row 6 "0"))
    ∧ 0 < t.amount := by
  simp only [processRow] at h
  split_ifs at h with h1 h2 h3 h4
  simp only [Option.some.injEq] at h
  subst h
  push_neg at h3
  obtain ⟨h3a, h3b, h3c⟩ := h3
  refine ⟨by omega, ?_, h3a, h3b, by omega, rfl, rfl, h4⟩
  intro kw hkw
  by_contra hcon
  exact h2 (List.any_eq_true.mpr ⟨kw, hkw, by simpa using hcon⟩)

/-- Auxiliary for the C6 witness: the sample row extracts to a transaction
with journal `JRN123` and amount `1500`. -/
theorem rowC6_processes :
    processRow rowC6 = some ⟨"01/01/2025", "JRN123", "desc here", 1500⟩ := by
  have hamt : parse_amount (some "1,500.00") = 1500 := by
    have hclean : pyStrip (pyReplace (pyReplace (pyReplace "1,500.00" "," "") "Nu." "") "BTN" "")
        = "1500.00" := by decide
    have hparts : pyFloatParts "1500.00" = some ⟨false, 1500, 0, 2, 0⟩ := by decide
    simp [parse_amount, pyFloat, hclean, hparts, ratOfFloatParts]
  have hkw : (excludeKws.any (fun kw => strContainsSub (pyUpper (pyReprRow rowC6)) kw)) = false := by
    decide
  have hcf0 : cellField rowC6 0 "" = "01/01/2025" := by decide
  have hcf2 : cellField rowC6 2 "" = "desc here" := by decide
  have hcf3 : cellField rowC6 3 "" = "JRN123" := by decide
  have hcf6 : cellField rowC6 6 "0" = "1,500.00" := by decide
  have hlen : ¬ (rowC6.length < 5) := by decide
  rw [processRow]
  rw [if_neg hlen, if_neg (by rw [hkw]; simp)]
  rw [hcf0, hcf2, hcf3, hcf6]
  dsimp only
  rw [if_neg (by decide), hamt, if_pos (by norm_num)]

/-- C6 witness: the sample row satisfies every acceptance condition. -/
theorem C6_row_filter_witness :
    5 ≤ rowC6.length
    ∧ strContainsSub (pyUpper (pyReprRow rowC6)) "TOTAL" = false
    ∧ cellField rowC6 3 "" ≠ ""
    ∧ cellField rowC6 3 "" ≠ "None"
    ∧ 3 ≤ (cellField rowC6 3 "").length
    ∧ (0 : ℚ) < 1500 :=
  have hc := C6_row_filter rowC6 ⟨"01/01/2025", "JRN123", "desc here", 1500⟩ rowC6_processes
  ⟨hc.1, hc.2.1 "TOTAL" (by decide), hc.2.2.1, hc.2.2.2.1, hc.2.2.2.2.1,
   hc.2.2.2.2.2.2.2⟩

/-- C7: `parse_amount` is total (it is a Lean function, so it never raises):
any input whose cleaned form fails to parse yields `0.0`, a parseable cleaned
form yields its decimal value, and `parse_amount("Nu. 1,234.50") = 1234.50`,
`parse_amount(None) = 0.0`, `parse_amount("garbage") = 0.0`. -/
theorem C7_parse_amount_total :
    (∀ s : String,
      pyFloat (pyStrip (pyReplace (pyReplace (pyReplace s "," "") "Nu." "") "BTN" ""))
        = Option.none →
      parse_amount (some s) = 0)
    ∧ (∀ (s : String) (v : ℚ), s ≠ "" →
      pyFloat (pyStrip (pyReplace (pyReplace (pyReplace s "," "") "Nu." "") "BTN" ""))
        = some v →
      parse_amount (some s) = v)
    ∧ parse_amount Option.none = 0
    ∧ parse_amount (some "") = 0
    ∧ parse_amount (some "Nu. 1,234.50") = 1234.5
    ∧ parse_amount (some "garbage") = 0 := by
  refine ⟨?_, ?_, rfl, by simp [parse_amount], ?_, ?_⟩
  · intro s h
    by_cases hs : s = ""
    · simp [parse_amount, hs]
    · simp [parse_amount, hs, h]
  · intro s v hs h
    simp [parse_amount, hs, h]
  · have hclean : pyStrip (pyReplace (pyReplace (pyReplace "Nu. 1,234.50" "," "") "Nu." "") "BTN" "")
        = "1234.50" := by decide
    have hparts : pyFloatParts "1234.50" = some ⟨false, 1234, 50, 2, 0⟩ := by decide
    simp [parse_amount, pyFloat, hclean, hparts, ratOfFloatParts]
    norm_num
  · have hclean : pyStrip (pyReplace (pyReplace (pyReplace "garbage" "," "") "Nu." "") "BTN" "")
        = "garbage" := by decide
    have hparts : pyFloatParts "garbage" = Option.none := by decide
    simp [parse_amount, pyFloat, hclean, hparts]

/-- C7 witness: the failure case at `"garbage"` and the success case at
`"7"`. -/
theorem C7_parse_amount_witness :
    parse_amount (some "garbage") = 0 ∧ parse_amount (some "7") = 7 :=
  ⟨C7_parse_amount_total.1 "garbage" (by decide),
   C7_parse_amount_total.2.1 "7" 7 (by decide) (by
    have hparts : pyFloatParts "7" = some ⟨false, 7, 0, 0, 0⟩ := by decide
    have hclean : pyStrip (pyReplace (pyReplace (pyReplace "7" "," "") "Nu." "") "BTN" "")
        = "7" := by decide
    rw [hclean, pyFloat, hparts]
    simp [ratOfFloatParts])⟩

/-- C8: for a transactional sheet with `N ≥ 1` data rows (`max_row = N + 1`
with the header), the TOTAL pass appends the TOTAL row at `N + 2` and the
SUM formula ranges over exactly rows `2 .. N + 1` of the Amount column. -/
theorem C8_total_formula (n : ℕ) (h : 1 ≤ n) :
    addTotalRow (n + 1) = some (n + 2, 2, n + 1) := by
  unfold addTotalRow writeCellRow
  rw [if_pos (by omega)]
  dsimp only
  have hm : max (n + 1) (n + 1 + 1) = n + 2 := by omega
  rw [hm]
  rfl

/-- C8 witness: a sheet with 3 data rows gets its TOTAL row at row 5 with a
formula over rows 2..4. -/
theorem C8_total_formula_witness : addTotalRow 4 = some (5, 2, 4) :=
  C8_total_formula 3 (by decide)

/-- C9: the accuracy cell equals `matched / total_entries × 100` when
`total_entries > 0` and is the literal `0%` otherwise; the division sits
under the guard, so the statistics never divide by zero. -/
theorem C9_accuracy (rows : List LedgerRow) (bank : List BankTxn) :
    ((statsOf rows bank).total_entries = 0 →
      accuracyCell (statsOf rows bank) = .zeroLiteral)
    ∧ (0 < (statsOf rows bank).total_entries →
      accuracyCell (statsOf rows bank) =
        .pct (((statsOf rows bank).matched : ℚ)
          / ((statsOf rows bank).total_entries : ℚ) * 100)) := by
  constructor
  · intro h
    simp [accuracyCell, h]
  · intro h
    simp [accuracyCell, h]

/-- C9 witness: the empty run reports the literal `0%`; the sample run with 3
filtered entries reports the computed percentage. -/
theorem C9_accuracy_witness :
    accuracyCell (statsOf [] []) = .zeroLiteral
    ∧ accuracyCell (statsOf rowsW bankW) =
        .pct (((statsOf rowsW bankW).matched : ℚ)
          / ((statsOf rowsW bankW).total_entries : ℚ) * 100) :=
  ⟨(C9_accuracy [] []).1 (by decide), (C9_accuracy rowsW bankW).2 (by decide)⟩

/-- C10: when the document opens but extraction yields zero transactions, the
resulting DataFrame has no columns and the constructor's
`bank_df['journal_number']` access fails with a `KeyError`, so reconciliation
aborts without a report. -/
theorem C10_empty_extraction (rows : List LedgerRow)
    (pages : List (List (List (List (Option String)))))
    (h : extractPdf pages = []) :
    dfColumns (extractPdf pages) = []
    ∧ bankReconciliationInit rows pages = .error "KeyError: journal_number" := by
  constructor
  · simp [h, dfColumns]
  · simp [bankReconciliationInit, initBankDf, colAccess, h, dfColumns]

/-- C10 witness: a parseable document whose only table has no `JOURNAL`
header extracts nothing and the constructor fails. -/
theorem C10_empty_extraction_witness :
    dfColumns (extractPdf pagesNoHeader) = []
    ∧ bankReconciliationInit rowsW pagesNoHeader = .error "KeyError: journal_number" :=
  C10_empty_extraction rowsW pagesNoHeader (by decide)

end BankRec
